import Mathlib

/-!
Shallow embedding of the Tardis HTTP adapter
(`nautilus_core/adapters/tardis/src/http/client.rs` and
`nautilus_core/adapters/tardis/src/http/query.rs`).

External collaborators (the `reqwest` transport, `serde_json`, the
normalization function `parse_instrument_any`, and the wire record types)
are represented as explicit function parameters or, where the repository
code is not available, as definitions modelled from the specification.
Machine integers are modelled as `Nat`/`Int`; `UnixNanos` is modelled as
`Nat` and `UnixNanos::from` as the identity, so the optional `ts_init`
argument is passed through unchanged.
-/

namespace Tardis

/-- Lowercase hexadecimal digit, as used by the JSON string escaper for
control characters. -/
def lowerHexDigit (n : Nat) : Char :=
  if n < 10 then Char.ofNat (48 + n) else Char.ofNat (87 + n)

/-- Uppercase hexadecimal digit, as used by percent-encoding. -/
def upperHexDigit (n : Nat) : Char :=
  if n < 10 then Char.ofNat (48 + n) else Char.ofNat (55 + n)

/-- JSON string escaping of one character, following the compact escaping of
the serializer used by the adapter: quote and backslash get a backslash
escape, the five named control characters get their short forms, all other
control characters below 0x20 get a lowercase hex escape, and every other
character is emitted verbatim. -/
def jsonEscapeChar (c : Char) : String :=
  let n := c.toNat
  if n = 34 then "\\\""
  else if n = 92 then "\\\\"
  else if n = 8 then "\\b"
  else if n = 9 then "\\t"
  else if n = 10 then "\\n"
  else if n = 12 then "\\f"
  else if n = 13 then "\\r"
  else if n < 32 then "\\u00" ++ String.mk [lowerHexDigit (n / 16), lowerHexDigit (n % 16)]
  else String.singleton c

/-- JSON serialization of a string value. -/
def jsonString (s : String) : String :=
  "\"" ++ String.join (s.data.map jsonEscapeChar) ++ "\""

/-- JSON serialization of an array of strings. -/
def jsonStringArray (xs : List String) : String :=
  "[" ++ String.intercalate "," (xs.map jsonString) ++ "]"

/-- JSON serialization of a boolean value. -/
def jsonBool (b : Bool) : String :=
  if b then "true" else "false"

/-- UTF-8 byte sequence of a character, each byte as a `Nat` below 256. -/
def utf8Bytes (c : Char) : List Nat :=
  let n := c.toNat
  if n < 128 then [n]
  else if n < 2048 then [192 + n / 64, 128 + n % 64]
  else if n < 65536 then [224 + n / 4096, 128 + (n / 64) % 64, 128 + n % 64]
  else [240 + n / 262144, 128 + (n / 4096) % 64, 128 + (n / 64) % 64, 128 + n % 64]

/-- Unreserved bytes of the `urlencoding` crate: ASCII letters, digits,
hyphen, period, underscore and tilde are kept verbatim. -/
def isUnreservedByte (b : Nat) : Bool :=
  (65 ≤ b && b ≤ 90) || (97 ≤ b && b ≤ 122) || (48 ≤ b && b ≤ 57)
    || b == 45 || b == 46 || b == 95 || b == 126

/-- Percent-encoding of a single byte: kept verbatim when unreserved,
otherwise a percent sign followed by two uppercase hex digits. -/
def percentEncodeByte (b : Nat) : String :=
  if isUnreservedByte b then String.singleton (Char.ofNat b)
  else String.mk ['%', upperHexDigit (b / 16 % 16), upperHexDigit (b % 16)]

/-- `urlencoding::encode`: percent-encode every UTF-8 byte of the string
that is not unreserved. -/
def percentEncode (s : String) : String :=
  String.join ((s.data.flatMap utf8Bytes).map percentEncodeByte)

/-- The instrument metadata API filter object from `query.rs`: five
independently optional criteria. -/
structure InstrumentFilter where
  base_currency : Option (List String)
  quote_currency : Option (List String)
  instrument_type : Option (List String)
  contract_type : Option (List String)
  active : Option Bool

/-- The `Default` derive of `InstrumentFilter`: every field unset. -/
def InstrumentFilter.default : InstrumentFilter :=
  ⟨none, none, none, none, none⟩

/-- The serialized key/value pairs of an `InstrumentFilter`, in field
declaration order, under the serde external names (camelCase renames and
the explicit rename of `instrument_type` to `type`); a `None` field is
skipped entirely (`skip_serializing_if = Option.is_none`). -/
def filterFields (f : InstrumentFilter) : List (String × String) :=
  (match f.base_currency with
    | none => []
    | some v => [("baseCurrency", jsonStringArray v)])
  ++ (match f.quote_currency with
    | none => []
    | some v => [("quoteCurrency", jsonStringArray v)])
  ++ (match f.instrument_type with
    | none => []
    | some v => [("type", jsonStringArray v)])
  ++ (match f.contract_type with
    | none => []
    | some v => [("contractType", jsonStringArray v)])
  ++ (match f.active with
    | none => []
    | some b => [("active", jsonBool b)])

/-- Compact JSON object serialization of an `InstrumentFilter`, as produced
by `serde_json::to_string`. -/
def filterJson (f : InstrumentFilter) : String :=
  "\x7b"
    ++ String.intercalate "," ((filterFields f).map (fun p => jsonString p.1 ++ ":" ++ p.2))
    ++ "\x7d"

/-- `serde_json::to_string` applied to an `InstrumentFilter`: for this type
serialization always succeeds, producing the compact JSON object. -/
def serde_to_string (f : InstrumentFilter) : Option String :=
  some (filterJson f)

/-- Modelled from the spec: the structured provider error payload
`TardisErrorResponse` (from the adapter error module, not part of the
provided sources) deserialized from a non-success body, carrying a
provider error code (integer) and a message (string). -/
structure TardisErrorResponse where
  code : Int
  message : String

/-- The adapter error type: a transport failure surfaced verbatim, a
classified API failure carrying HTTP status, provider code and message,
or a response-body parse failure carrying the deserializer description. -/
inductive Error where
  | Transport (description : String)
  | ApiError (status : Nat) (code : Int) (message : String)
  | ResponseParse (description : String)
deriving DecidableEq

/-- An HTTP response as observed by the client: its status code and its
body text, `none` when reading the body as text fails. -/
structure HttpResponse where
  status : Nat
  body : Option String

/-- `reqwest::StatusCode::is_success`: status in 200..=299. -/
def statusIsSuccess (s : Nat) : Bool :=
  200 ≤ s && s < 300

/-- `TardisHttpClient::handle_error_response`: read the body as text
(empty string when unreadable), try to parse it as a structured
`TardisErrorResponse` (the parser `from_str_err` stands for
`serde_json::from_str`); on success build an `ApiError` from the payload,
otherwise an `ApiError` with code 0 and the raw body text. Always an
error, for any expected success type `α`. -/
def handle_error_response {α : Type} (from_str_err : String → Option TardisErrorResponse)
    (resp : HttpResponse) : Except Error α :=
  let status := resp.status
  let error_text := resp.body.getD ""
  match from_str_err error_text with
  | some error => Except.error (Error.ApiError status error.code error.message)
  | none => Except.error (Error.ApiError status 0 error_text)

/-- The URL built by `TardisHttpClient::instruments_info`: the base URL,
the fixed path with the exchange, and — only when a filter is supplied and
its serialization (`to_string_filter`, standing for
`serde_json::to_string`) succeeds — the percent-encoded filter appended as
the `filter` query parameter. -/
def instrumentsUrl (to_string_filter : InstrumentFilter → Option String)
    (base_url exchange : String) (filter : Option InstrumentFilter) : String :=
  let url := base_url ++ "/instruments/" ++ exchange
  match filter with
  | none => url
  | some f =>
    match to_string_filter f with
    | none => url
    | some filter_json => url ++ ("?filter=" ++ percentEncode filter_json)

/-- The URL built by `TardisHttpClient::instrument_info` for a single
symbol. -/
def instrumentUrl (base_url exchange symbol : String) : String :=
  base_url ++ "/instruments/" ++ exchange ++ "/" ++ symbol

/-- `TardisHttpClient::instruments_info`: build the URL, perform the GET
(`http_get` stands for the transport; a transport failure is surfaced
verbatim), route non-success responses to `handle_error_response`, read
the success body (propagating a text-read failure as transport) and
deserialize it as a list of raw records (`from_str_records` stands for
`serde_json::from_str`); a deserialization failure becomes
`Error.ResponseParse` carrying the deserializer description. -/
def instruments_info {α : Type} (from_str_records : String → Except String (List α))
    (from_str_err : String → Option TardisErrorResponse)
    (to_string_filter : InstrumentFilter → Option String)
    (base_url exchange : String) (filter : Option InstrumentFilter)
    (http_get : String → Except String HttpResponse) : Except Error (List α) :=
  let url := instrumentsUrl to_string_filter base_url exchange filter
  match http_get url with
  | Except.error e => Except.error (Error.Transport e)
  | Except.ok resp =>
    if statusIsSuccess resp.status then
      match resp.body with
      | none => Except.error (Error.Transport "body text unavailable")
      | some body =>
        match from_str_records body with
        | Except.ok parsed => Except.ok parsed
        | Except.error e => Except.error (Error.ResponseParse e)
    else
      handle_error_response from_str_err resp

/-- `TardisHttpClient::instrument_info`: same lifecycle as
`instruments_info` but for the single-symbol URL and a single raw
record. -/
def instrument_info {α : Type} (from_str_record : String → Except String α)
    (from_str_err : String → Option TardisErrorResponse)
    (base_url exchange symbol : String)
    (http_get : String → Except String HttpResponse) : Except Error α :=
  let url := instrumentUrl base_url exchange symbol
  match http_get url with
  | Except.error e => Except.error (Error.Transport e)
  | Except.ok resp =>
    if statusIsSuccess resp.status then
      match resp.body with
      | none => Except.error (Error.Transport "body text unavailable")
      | some body =>
        match from_str_record body with
        | Except.ok parsed => Except.ok parsed
        | Except.error e => Except.error (Error.ResponseParse e)
    else
      handle_error_response from_str_err resp

/-- `TardisHttpClient::instruments`: fetch the raw records via
`instruments_info`, then flat-map every record through normalization
(`parse_instrument_any` is the normalization function, an external
collaborator producing zero or more domain instruments per record, here a
parameter over record type `α` and instrument type `β`). -/
def instruments {α β : Type} (from_str_records : String → Except String (List α))
    (from_str_err : String → Option TardisErrorResponse)
    (to_string_filter : InstrumentFilter → Option String)
    (parse_instrument_any : α → Option Nat → Option Nat → Option Nat → Bool → List β)
    (base_url exchange : String) (start end_ ts_init : Option Nat)
    (filter : Option InstrumentFilter) (normalize_symbols : Bool)
    (http_get : String → Except String HttpResponse) : Except Error (List β) :=
  match instruments_info from_str_records from_str_err to_string_filter
      base_url exchange filter http_get with
  | Except.error e => Except.error e
  | Except.ok response =>
    Except.ok (response.flatMap
      (fun info => parse_instrument_any info start end_ ts_init normalize_symbols))

/-- `TardisHttpClient::instrument`: fetch one raw record via
`instrument_info`, then normalize it (zero-or-more output). -/
def instrument {α β : Type} (from_str_record : String → Except String α)
    (from_str_err : String → Option TardisErrorResponse)
    (parse_instrument_any : α → Option Nat → Option Nat → Option Nat → Bool → List β)
    (base_url exchange symbol : String) (start end_ ts_init : Option Nat)
    (normalize_symbols : Bool)
    (http_get : String → Except String HttpResponse) : Except Error (List β) :=
  match instrument_info from_str_record from_str_err base_url exchange symbol http_get with
  | Except.error e => Except.error e
  | Except.ok response =>
    Except.ok (parse_instrument_any response start end_ ts_init normalize_symbols)

/-- Modelled from the spec: the fixed provider endpoint `TARDIS_BASE_URL`
(declared in the adapter module root, not part of the provided sources)
used as the default base URL. -/
def TARDIS_BASE_URL : String :=
  "https://api.tardis.dev/v1"

/-- The Tardis HTTP API client state: connection configuration plus the
built transport client (`C` stands for the `reqwest::Client` type). -/
structure TardisHttpClient (C : Type) where
  base_url : String
  api_key : String
  client : C
  normalize_symbols : Bool

/-- `TardisHttpClient::new`: resolve the credential from the explicit
argument or, failing that, from the `TARDIS_API_KEY` environment variable
(`env_var` stands for `std::env::var`; absence of both is a configuration
error); default the base URL to `TARDIS_BASE_URL` and the timeout to 60
seconds; build the transport client with that timeout (`build_client`
stands for the `reqwest` client builder, whose failure propagates). -/
def TardisHttpClient.new {C : Type} (build_client : Nat → Except String C)
    (env_var : String → Option String)
    (api_key : Option String) (base_url : Option String) (timeout_secs : Option Nat)
    (normalize_symbols : Bool) : Except String (TardisHttpClient C) :=
  match (match api_key with
    | some key => Except.ok key
    | none =>
      match env_var "TARDIS_API_KEY" with
      | some value => Except.ok value
      | none => Except.error
          "API key must be provided or set in the TARDIS_API_KEY environment variable") with
  | Except.error e => Except.error e
  | Except.ok api_key =>
    let base_url := base_url.getD TARDIS_BASE_URL
    let timeout := timeout_secs.getD 60
    match build_client timeout with
    | Except.error e => Except.error e
    | Except.ok client => Except.ok ⟨base_url, api_key, client, normalize_symbols⟩

/-- `true` when the string contains `sub` as a contiguous substring
(character-level scan). -/
def listContainsSub (sub : List Char) : List Char → Bool
  | [] => sub.isEmpty
  | c :: rest => sub.isPrefixOf (c :: rest) || listContainsSub sub rest

/-- Whether a URL contains a `filter` query parameter. -/
def urlHasFilterParam (url : String) : Bool :=
  listContainsSub "?filter=".data url.data

end Tardis

namespace Tardis

/-- Claim C3: for every `InstrumentFilter`, the encoded query-parameter
value is the percent-encoded JSON serialization, and the serialized object
contains exactly the keys of the set fields under the fixed external names
`baseCurrency`, `quoteCurrency`, `type`, `contractType`, `active`; an
unset field contributes no key at all. -/
theorem filter_serialization_exact_keys (base_url exchange : String) (f : InstrumentFilter) :
    instrumentsUrl serde_to_string base_url exchange (some f)
      = base_url ++ "/instruments/" ++ exchange ++ ("?filter=" ++ percentEncode (filterJson f))
    ∧ (filterFields f).map Prod.fst
      = (if f.base_currency.isSome then ["baseCurrency"] else [])
        ++ ((if f.quote_currency.isSome then ["quoteCurrency"] else [])
        ++ ((if f.instrument_type.isSome then ["type"] else [])
        ++ ((if f.contract_type.isSome then ["contractType"] else [])
        ++ (if f.active.isSome then ["active"] else []))))
    ∧ ∀ k : String, (k ∈ (filterFields f).map Prod.fst ↔
        ((k = "baseCurrency" ∧ f.base_currency.isSome = true)
        ∨ (k = "quoteCurrency" ∧ f.quote_currency.isSome = true)
        ∨ (k = "type" ∧ f.instrument_type.isSome = true)
        ∨ (k = "contractType" ∧ f.contract_type.isSome = true)
        ∨ (k = "active" ∧ f.active.isSome = true))) := by
  obtain ⟨bc, qc, it, ct, ac⟩ := f
  refine ⟨rfl, ?_, ?_⟩
  · cases bc <;> cases qc <;> cases it <;> cases ct <;> cases ac <;> simp [filterFields]
  · intro k
    cases bc <;> cases qc <;> cases it <;> cases ct <;> cases ac <;>
      simp [filterFields]

/-- Concrete instance of claim C3 at a filter with three set fields. -/
theorem filter_serialization_exact_keys_witness :
    instrumentsUrl serde_to_string "https://api.tardis.dev/v1" "bitmex"
        (some ⟨some ["BTC"], none, some ["perpetual"], none, some true⟩)
      = "https://api.tardis.dev/v1/instruments/bitmex?filter=%7B%22baseCurrency%22%3A%5B%22BTC%22%5D%2C%22type%22%3A%5B%22perpetual%22%5D%2C%22active%22%3Atrue%7D"
    ∧ (filterFields ⟨some ["BTC"], none, some ["perpetual"], none, some true⟩).map Prod.fst
      = ["baseCurrency", "type", "active"] := by
  have h := filter_serialization_exact_keys "https://api.tardis.dev/v1" "bitmex"
    ⟨some ["BTC"], none, some ["perpetual"], none, some true⟩
  exact ⟨h.1.trans (by decide), h.2.1.trans (by decide)⟩

/-- Claim C4 counterexample: a supplied filter value with all fields unset
serializes to the empty JSON object, so the request URL does contain a
`filter` query parameter, namely `?filter=%7B%7D`. -/
theorem all_unset_filter_url_contains_filter_param :
    urlHasFilterParam (instrumentsUrl serde_to_string TARDIS_BASE_URL "bitmex"
        (some InstrumentFilter.default)) = true
    ∧ instrumentsUrl serde_to_string TARDIS_BASE_URL "bitmex" (some InstrumentFilter.default)
      = "https://api.tardis.dev/v1/instruments/bitmex?filter=%7B%7D" := by
  constructor
  · decide
  · decide

/-- Claim C4 (amended): when no filter argument is supplied, the request
URL contains no `filter` query parameter; a supplied filter value with all
fields unset instead serializes to the empty JSON object and yields
`?filter=%7B%7D`. -/
theorem no_filter_argument_yields_no_filter_param
    (to_string_filter : InstrumentFilter → Option String) (base_url exchange : String) :
    instrumentsUrl to_string_filter base_url exchange none
      = base_url ++ "/instruments/" ++ exchange
    ∧ instrumentsUrl serde_to_string base_url exchange (some InstrumentFilter.default)
      = base_url ++ "/instruments/" ++ exchange ++ ("?filter=" ++ "%7B%7D") := by
  refine ⟨rfl, ?_⟩
  have h : percentEncode (filterJson InstrumentFilter.default) = "%7B%7D" := by decide
  show base_url ++ "/instruments/" ++ exchange
      ++ ("?filter=" ++ percentEncode (filterJson InstrumentFilter.default)) = _
  rw [h]

/-- Concrete instance of the amended claim C4. -/
theorem no_filter_argument_yields_no_filter_param_witness :
    instrumentsUrl serde_to_string TARDIS_BASE_URL "deribit" none
      = TARDIS_BASE_URL ++ "/instruments/" ++ "deribit" :=
  (no_filter_argument_yields_no_filter_param serde_to_string TARDIS_BASE_URL "deribit").1

/-- Claim C7: when filter serialization fails, the filter query parameter
is silently omitted and `instruments_info` still issues the request with
the unfiltered URL, behaving exactly as if no filter had been supplied. -/
theorem serialization_failure_degrades_to_unfiltered {α : Type}
    (from_str_records : String → Except String (List α))
    (from_str_err : String → Option TardisErrorResponse)
    (to_string_filter : InstrumentFilter → Option String)
    (base_url exchange : String) (f : InstrumentFilter)
    (http_get : String → Except String HttpResponse)
    (hser : to_string_filter f = none) :
    instrumentsUrl to_string_filter base_url exchange (some f)
      = base_url ++ "/instruments/" ++ exchange
    ∧ instruments_info from_str_records from_str_err to_string_filter base_url exchange
        (some f) http_get
      = instruments_info from_str_records from_str_err to_string_filter base_url exchange
        none http_get := by
  have hurl : instrumentsUrl to_string_filter base_url exchange (some f)
      = base_url ++ "/instruments/" ++ exchange := by
    simp [instrumentsUrl, hser]
  exact ⟨hurl, by simp [instruments_info, instrumentsUrl, hser]⟩

/-- Concrete instance of claim C7 with a failing serializer. -/
theorem serialization_failure_degrades_to_unfiltered_witness :
    instrumentsUrl (fun _ => none) "https://api.tardis.dev/v1" "bitmex"
        (some InstrumentFilter.default)
      = "https://api.tardis.dev/v1" ++ "/instruments/" ++ "bitmex"
    ∧ instruments_info (fun _ => Except.ok ([] : List Nat)) (fun _ => none) (fun _ => none)
        "https://api.tardis.dev/v1" "bitmex" (some InstrumentFilter.default)
        (fun _ => Except.ok ⟨200, some "raw"⟩)
      = instruments_info (fun _ => Except.ok ([] : List Nat)) (fun _ => none) (fun _ => none)
        "https://api.tardis.dev/v1" "bitmex" none
        (fun _ => Except.ok ⟨200, some "raw"⟩) :=
  serialization_failure_degrades_to_unfiltered _ _ _ _ _ _ _ rfl

end Tardis

namespace Tardis

/-- Claim C2: for every non-success HTTP response the error classifier
returns an `ApiError` (never a success, never a secondary error) carrying
the response status; when the body text parses as a structured
`TardisErrorResponse` it carries that code and message, otherwise code 0
and the raw body text; an unreadable body is treated as the empty
string. -/
theorem handle_error_response_always_api_failure {α : Type}
    (from_str_err : String → Option TardisErrorResponse) (resp : HttpResponse)
    (hns : statusIsSuccess resp.status = false) :
    (∃ c m, handle_error_response from_str_err resp
        = (Except.error (Error.ApiError resp.status c m) : Except Error α))
    ∧ (∀ tr, from_str_err (resp.body.getD "") = some tr →
        handle_error_response from_str_err resp
          = (Except.error (Error.ApiError resp.status tr.code tr.message) : Except Error α))
    ∧ (from_str_err (resp.body.getD "") = none →
        handle_error_response from_str_err resp
          = (Except.error (Error.ApiError resp.status 0 (resp.body.getD "")) : Except Error α))
    ∧ (resp.body = none →
        handle_error_response from_str_err resp
          = (handle_error_response from_str_err ⟨resp.status, some ""⟩ : Except Error α)) := by
  obtain ⟨st, body⟩ := resp
  refine ⟨?_, ?_, ?_, ?_⟩
  · cases h : from_str_err (body.getD "") with
    | none => exact ⟨0, body.getD "", by simp [handle_error_response, h]⟩
    | some tr => exact ⟨tr.code, tr.message, by simp [handle_error_response, h]⟩
  · intro tr h
    simp [handle_error_response, h]
  · intro h
    simp [handle_error_response, h]
  · intro hb
    subst hb
    rfl

/-- Concrete instance of claim C2: status 404 with an unstructured body
yields an `ApiError` with code 0 and the raw body text. -/
theorem handle_error_response_always_api_failure_witness :
    handle_error_response (fun _ => none) ⟨404, some "oops"⟩
      = (Except.error (Error.ApiError 404 0 "oops") : Except Error (List Nat)) :=
  (handle_error_response_always_api_failure (fun _ => none) ⟨404, some "oops"⟩
    (by decide)).2.2.1 rfl

/-- Claim C6: construction fails with the configuration error exactly when
neither an explicit credential nor the `TARDIS_API_KEY` environment
variable supplies one; when either source supplies a credential and the
transport-client build succeeds, construction succeeds and stores that
credential. No network activity is involved in construction. -/
theorem construction_credential_contract {C : Type}
    (build_client : Nat → Except String C) (env_var : String → Option String)
    (base_url : Option String) (timeout_secs : Option Nat) (normalize_symbols : Bool) :
    (env_var "TARDIS_API_KEY" = none →
      TardisHttpClient.new build_client env_var none base_url timeout_secs normalize_symbols
        = Except.error
            "API key must be provided or set in the TARDIS_API_KEY environment variable")
    ∧ (∀ key c, build_client (timeout_secs.getD 60) = Except.ok c →
        TardisHttpClient.new build_client env_var (some key) base_url timeout_secs
            normalize_symbols
          = Except.ok ⟨base_url.getD TARDIS_BASE_URL, key, c, normalize_symbols⟩)
    ∧ (∀ value c, env_var "TARDIS_API_KEY" = some value →
        build_client (timeout_secs.getD 60) = Except.ok c →
        TardisHttpClient.new build_client env_var none base_url timeout_secs normalize_symbols
          = Except.ok ⟨base_url.getD TARDIS_BASE_URL, value, c, normalize_symbols⟩) := by
  refine ⟨?_, ?_, ?_⟩
  · intro h
    simp [TardisHttpClient.new, h]
  · intro key c h
    simp [TardisHttpClient.new, h]
  · intro value c h hb
    simp [TardisHttpClient.new, h, hb]

/-- Concrete instance of claim C6: both sources absent fails with the
configuration error; an explicit key succeeds. -/
theorem construction_credential_contract_witness :
    TardisHttpClient.new (fun t => Except.ok t) (fun _ => none) none none none false
      = Except.error
          "API key must be provided or set in the TARDIS_API_KEY environment variable"
    ∧ TardisHttpClient.new (fun t => Except.ok t) (fun _ => none) (some "abc") none none false
      = Except.ok ⟨TARDIS_BASE_URL, "abc", 60, false⟩ :=
  ⟨(construction_credential_contract (fun t => Except.ok t) (fun _ => none) none none
      false).1 rfl,
   (construction_credential_contract (fun t => Except.ok t) (fun _ => none) none none
      false).2.1 "abc" 60 rfl⟩

/-- Claim C8: with no base URL the client uses the fixed provider endpoint
and with no timeout the transport client is built with 60 seconds;
supplied values override both defaults. The transport builder here records
the timeout it receives as the built client value. -/
theorem construction_defaults (env_var : String → Option String) (key : String)
    (normalize_symbols : Bool) :
    (TardisHttpClient.new (fun t => Except.ok t) env_var (some key) none none
        normalize_symbols).map (fun c => c.base_url) = Except.ok TARDIS_BASE_URL
    ∧ (TardisHttpClient.new (fun t => Except.ok t) env_var (some key) none none
        normalize_symbols).map (fun c => c.client) = Except.ok 60
    ∧ ∀ (u : String) (t : Nat),
        (TardisHttpClient.new (fun s => Except.ok s) env_var (some key) (some u) (some t)
            normalize_symbols).map (fun c => c.base_url) = Except.ok u
        ∧ (TardisHttpClient.new (fun s => Except.ok s) env_var (some key) (some u) (some t)
            normalize_symbols).map (fun c => c.client) = Except.ok t :=
  ⟨rfl, rfl, fun _ _ => ⟨rfl, rfl⟩⟩

/-- Concrete instance of claim C8 at an empty environment. -/
theorem construction_defaults_witness :
    (TardisHttpClient.new (fun t => Except.ok t) (fun _ => none) (some "k") none none
        true).map (fun c => c.base_url) = Except.ok TARDIS_BASE_URL :=
  (construction_defaults (fun _ => none) "k" true).1

/-- Claim C9: with an explicit API key, construction is identical under
any two environment states, and the stored credential is the explicit key
whenever the transport-client build succeeds: the environment variable is
never consulted. -/
theorem explicit_key_shields_env {C : Type} (build_client : Nat → Except String C)
    (key : String) (base_url : Option String) (timeout_secs : Option Nat)
    (normalize_symbols : Bool) (env1 env2 : String → Option String) :
    TardisHttpClient.new build_client env1 (some key) base_url timeout_secs normalize_symbols
      = TardisHttpClient.new build_client env2 (some key) base_url timeout_secs
          normalize_symbols
    ∧ (TardisHttpClient.new build_client env1 (some key) base_url timeout_secs
          normalize_symbols).map (fun c => c.api_key)
      = (build_client (timeout_secs.getD 60)).map (fun _ => key) := by
  refine ⟨rfl, ?_⟩
  cases h : build_client (timeout_secs.getD 60) <;>
    simp [TardisHttpClient.new, h, Except.map]

/-- Concrete instance of claim C9: environment set versus unset makes no
difference given an explicit key. -/
theorem explicit_key_shields_env_witness :
    TardisHttpClient.new (fun t => Except.ok t) (fun _ => some "fromenv") (some "explicit")
        none none false
      = TardisHttpClient.new (fun t => Except.ok t) (fun _ => none) (some "explicit")
        none none false :=
  (explicit_key_shields_env (fun t => Except.ok t) "explicit" none none false
    (fun _ => some "fromenv") (fun _ => none)).1

end Tardis

namespace Tardis

/-- Claim C1: `instruments` returns the flattening of the per-record
normalization outputs, so when the decoded response consists of records
`pre`, one malformed record `mal` (whose normalization yields zero
outputs) and records `post`, the output is exactly the normalized
instruments contributed by `pre` and `post`; the malformed record never
prevents its siblings from contributing. -/
theorem instruments_skips_malformed_record {α β : Type}
    (from_str_records : String → Except String (List α))
    (from_str_err : String → Option TardisErrorResponse)
    (to_string_filter : InstrumentFilter → Option String)
    (parse_instrument_any : α → Option Nat → Option Nat → Option Nat → Bool → List β)
    (base_url exchange : String) (start end_ ts_init : Option Nat)
    (filter : Option InstrumentFilter) (normalize_symbols : Bool)
    (http_get : String → Except String HttpResponse)
    (st : Nat) (body : String) (pre post : List α) (mal : α)
    (hhttp : http_get (instrumentsUrl to_string_filter base_url exchange filter)
      = Except.ok ⟨st, some body⟩)
    (hst : statusIsSuccess st = true)
    (hdec : from_str_records body = Except.ok (pre ++ mal :: post))
    (hmal : parse_instrument_any mal start end_ ts_init normalize_symbols = []) :
    instruments from_str_records from_str_err to_string_filter parse_instrument_any
        base_url exchange start end_ ts_init filter normalize_symbols http_get
      = Except.ok
          (pre.flatMap (fun i => parse_instrument_any i start end_ ts_init normalize_symbols)
            ++ post.flatMap
                (fun i => parse_instrument_any i start end_ ts_init normalize_symbols)) := by
  simp [instruments, instruments_info, hhttp, hst, hdec, List.flatMap_append,
    List.flatMap_cons, hmal]

/-- Concrete instance of claim C1: three records of which the middle one
is malformed; the other two still contribute their outputs. -/
theorem instruments_skips_malformed_record_witness :
    instruments (fun _ => Except.ok [1, 0, 2]) (fun _ => none) (fun _ => none)
        (fun n _ _ _ _ => if n = 0 then [] else [n + 10]) "base" "bitmex"
        none none none none false (fun _ => Except.ok ⟨200, some "raw"⟩)
      = Except.ok [11, 12] := by
  have h := instruments_skips_malformed_record (fun _ => Except.ok [1, 0, 2]) (fun _ => none)
    (fun _ => none) (fun n _ _ _ _ => if n = 0 then [] else [n + 10]) "base" "bitmex"
    none none none none false (fun _ => Except.ok ⟨200, some "raw"⟩)
    200 "raw" [1] [2] 0 rfl (by decide) rfl (by decide)
  simpa using h

/-- Claim C10: `instruments` preserves input order — whenever the fetch
yields the record list `records`, the output is the in-order
concatenation (flattening) of the per-record normalization outputs, and
splitting the records anywhere splits the output accordingly. -/
theorem instruments_preserves_order {α β : Type}
    (from_str_records : String → Except String (List α))
    (from_str_err : String → Option TardisErrorResponse)
    (to_string_filter : InstrumentFilter → Option String)
    (parse_instrument_any : α → Option Nat → Option Nat → Option Nat → Bool → List β)
    (base_url exchange : String) (start end_ ts_init : Option Nat)
    (filter : Option InstrumentFilter) (normalize_symbols : Bool)
    (http_get : String → Except String HttpResponse) (records : List α)
    (hfetch : instruments_info from_str_records from_str_err to_string_filter base_url
        exchange filter http_get = Except.ok records) :
    instruments from_str_records from_str_err to_string_filter parse_instrument_any
        base_url exchange start end_ ts_init filter normalize_symbols http_get
      = Except.ok
          ((records.map
              (fun i => parse_instrument_any i start end_ ts_init normalize_symbols)).flatten)
    ∧ ∀ xs ys, records = xs ++ ys →
        instruments from_str_records from_str_err to_string_filter parse_instrument_any
            base_url exchange start end_ ts_init filter normalize_symbols http_get
          = Except.ok
              (xs.flatMap (fun i => parse_instrument_any i start end_ ts_init
                  normalize_symbols)
                ++ ys.flatMap (fun i => parse_instrument_any i start end_ ts_init
                    normalize_symbols)) := by
  have hflat : ∀ l : List α,
      l.flatMap (fun i => parse_instrument_any i start end_ ts_init normalize_symbols)
        = (l.map (fun i => parse_instrument_any i start end_ ts_init
            normalize_symbols)).flatten := by
    intro l
    induction l with
    | nil => rfl
    | cons a t ih => simp [ih]
  constructor
  · simp [instruments, hfetch, hflat]
  · rintro xs ys rfl
    simp [instruments, hfetch, List.flatMap_append]

/-- Concrete instance of claim C10: three records, each contributing two
instruments, appear in input order in the output. -/
theorem instruments_preserves_order_witness :
    instruments (fun _ => Except.ok [1, 2, 3]) (fun _ => none) (fun _ => none)
        (fun n _ _ _ _ => [n, n * 10]) "base" "bitmex" none none none none false
        (fun _ => Except.ok ⟨200, some "raw"⟩)
      = Except.ok [1, 10, 2, 20, 3, 30] := by
  have h := (instruments_preserves_order (fun _ => Except.ok [1, 2, 3]) (fun _ => none)
    (fun _ => none) (fun n _ _ _ _ => [n, n * 10]) "base" "bitmex" none none none none
    false (fun _ => Except.ok ⟨200, some "raw"⟩) [1, 2, 3] rfl).1
  simpa using h

/-- Claim C5: on an HTTP success status whose body fails to deserialize,
`instruments_info` and `instrument_info` return a `ResponseParse` error
carrying exactly the deserializer failure description — the raw body does
not appear in the error value — never a success and never a silent empty
result. -/
theorem response_parse_error_on_malformed_body {α β : Type}
    (from_str_records : String → Except String (List α))
    (from_str_record : String → Except String β)
    (from_str_err : String → Option TardisErrorResponse)
    (to_string_filter : InstrumentFilter → Option String)
    (base_url exchange symbol : String) (filter : Option InstrumentFilter)
    (http_get1 http_get2 : String → Except String HttpResponse)
    (st1 st2 : Nat) (body1 body2 msg1 msg2 : String)
    (h1 : http_get1 (instrumentsUrl to_string_filter base_url exchange filter)
      = Except.ok ⟨st1, some body1⟩)
    (hs1 : statusIsSuccess st1 = true)
    (hd1 : from_str_records body1 = Except.error msg1)
    (h2 : http_get2 (instrumentUrl base_url exchange symbol) = Except.ok ⟨st2, some body2⟩)
    (hs2 : statusIsSuccess st2 = true)
    (hd2 : from_str_record body2 = Except.error msg2) :
    instruments_info from_str_records from_str_err to_string_filter base_url exchange filter
        http_get1
      = Except.error (Error.ResponseParse msg1)
    ∧ instrument_info from_str_record from_str_err base_url exchange symbol http_get2
      = Except.error (Error.ResponseParse msg2) := by
  constructor
  · simp [instruments_info, h1, hs1, hd1]
  · simp [instrument_info, h2, hs2, hd2]

/-- Concrete instance of claim C5: a 200 response with an undecodable body
yields a `ResponseParse` error carrying the deserializer description for
both operations. -/
theorem response_parse_error_on_malformed_body_witness :
    instruments_info (fun _ => (Except.error "expected array" : Except String (List Nat)))
        (fun _ => none) (fun _ => none) "base" "bitmex" none
        (fun _ => Except.ok ⟨200, some "not json"⟩)
      = Except.error (Error.ResponseParse "expected array")
    ∧ instrument_info (fun _ => (Except.error "expected object" : Except String Nat))
        (fun _ => none) "base" "bitmex" "XBTUSD"
        (fun _ => Except.ok ⟨200, some "not json"⟩)
      = Except.error (Error.ResponseParse "expected object") :=
  response_parse_error_on_malformed_body
    (fun _ => (Except.error "expected array" : Except String (List Nat)))
    (fun _ => (Except.error "expected object" : Except String Nat))
    (fun _ => none) (fun _ => none) "base" "bitmex" "XBTUSD" none
    (fun _ => Except.ok ⟨200, some "not json"⟩) (fun _ => Except.ok ⟨200, some "not json"⟩)
    200 200 "not json" "not json" "expected array" "expected object"
    rfl (by decide) rfl rfl (by decide) rfl

end Tardis
